import Mathlib

/-!
Shallow embedding of the query-resolution pipeline in `src/app.py` of the
ipl-nlp repository: the `State` TypedDict, `get_llm`, the four LangGraph
nodes built by `build_graph` (`natural_language_expand`, `write_query`,
`execute_query`, `generate_answer`) and the orchestrator
`process_question`.

External effects (the two language-model call styles and the store
execution performed by `QuerySQLDataBaseTool`) are modelled as an `Env` of
oracle functions, and every run additionally returns the trace of external
calls it made, so that claims about which stages and calls happen (and in
which order) can be stated and proved.

Prompts are modelled structurally: each prompt value records the template
used and the bindings interpolated into it (the fixed prompt text of
`app.py` carries no additional information relevant to any claim).
Python exceptions are modelled as `Except String`, the `String` being
`str(e)` as used by `process_question`.
-/

namespace IplNlp

/-- The structured-output schema of stage 2 (`class QueryOutput(BaseModel)`
in `app.py`): a single SQL query string. -/
structure QueryOutput where
  query : String
deriving DecidableEq, Repr

/-- A prompt passed to `llm.invoke`: either the expansion f-string of
`natural_language_expand` (bindings: `db.get_table_info()` and
`state["question"]`) or the answer f-string of `generate_answer`
(bindings: `state["question"]`, `state["query"]`, `state["result"]`). -/
inductive LCPrompt where
  | expand (table_info : String) (question : String)
  | answer (question : String) (query : String) (result : String)
deriving DecidableEq, Repr

/-- The bindings that `write_query` passes to
`query_prompt_template.invoke`: dialect, `top_k`, table info and the
input question. -/
structure QueryPrompt where
  dialect : String
  top_k : Nat
  table_info : String
  input : String
deriving DecidableEq, Repr

/-- The external world seen by one run: the database metadata read by the
prompts, the plain chat-model call (`llm.invoke`), the structured call
(`llm.with_structured_output(QueryOutput).invoke`), and the store
execution (`SQLDatabase.run`), which returns rows or a database error. -/
structure Env where
  dialect : String
  table_info : String
  invoke : LCPrompt → Except String String
  invokeStructured : QueryPrompt → Except String QueryOutput
  run : String → Except String (List (List String))

/-- One external call made during a run. -/
inductive Event where
  | llmCall (p : LCPrompt)
  | structuredCall (p : QueryPrompt)
  | storeCall (query : String)
deriving DecidableEq, Repr

/-- The `State` TypedDict of `app.py`. `Option` models presence of the
key in the dict: reading an absent key with `state["k"]` is a `KeyError`,
and `dict.get` takes a default. -/
structure State where
  question : Option String
  expanded_question : Option String
  query : Option String
  result : Option String
  answer : Option String
deriving DecidableEq, Repr

/-- The partial dict a LangGraph node returns, e.g.
`{"expanded_question": response.content}`: only the keys the node sets
are present. -/
structure Update where
  question : Option String := none
  expanded_question : Option String := none
  query : Option String := none
  result : Option String := none
  answer : Option String := none
deriving DecidableEq, Repr

/-- LangGraph merging a node's returned partial dict into the state:
keys present in the update override, all other keys are kept. -/
def applyUpdate (s : State) (u : Update) : State where
  question := match u.question with | some v => some v | none => s.question
  expanded_question :=
    match u.expanded_question with | some v => some v | none => s.expanded_question
  query := match u.query with | some v => some v | none => s.query
  result := match u.result with | some v => some v | none => s.result
  answer := match u.answer with | some v => some v | none => s.answer

/-- `natural_language_expand` from `build_graph`: builds the expansion
prompt from `db.get_table_info()` and `state["question"]`, invokes the
model once and returns `{"expanded_question": response.content}`. -/
def natural_language_expand (env : Env) (s : State) :
    List Event × Except String Update :=
  match s.question with
  | none => ([], .error "KeyError: question")
  | some q =>
    let p := LCPrompt.expand env.table_info q
    match env.invoke p with
    | .ok content => ([Event.llmCall p], .ok { expanded_question := some content })
    | .error e => ([Event.llmCall p], .error e)

/-- `write_query` from `build_graph`: invokes the structured-output model
once on the query prompt (dialect, `top_k = 10`, table info,
`state["expanded_question"]`) and returns `{"query": result.query}`. -/
def write_query (env : Env) (s : State) :
    List Event × Except String Update :=
  match s.expanded_question with
  | none => ([], .error "KeyError: expanded_question")
  | some input =>
    let p : QueryPrompt :=
      { dialect := env.dialect, top_k := 10, table_info := env.table_info,
        input := input }
    match env.invokeStructured p with
    | .ok out => ([Event.structuredCall p], .ok { query := some out.query })
    | .error e => ([Event.structuredCall p], .error e)

/-- The serialization of a row list as returned by `SQLDatabase.run`
(Python `str` of a list of tuples). -/
def serializeRows (rows : List (List String)) : String :=
  "[" ++ String.intercalate ", "
    (rows.map (fun r => "(" ++ String.intercalate ", " r ++ ")")) ++ "]"

/-- `QuerySQLDataBaseTool.invoke`: runs the query through
`SQLDatabase.run_no_throw`, which returns the serialized rows on success
and captures any database error as the text `"Error: {e}"` instead of
raising. -/
def querySQLDataBaseTool (env : Env) (q : String) : String :=
  match env.run q with
  | .ok rows => serializeRows rows
  | .error e => "Error: " ++ e

/-- `execute_query` from `build_graph`: dispatches `state["query"]` to the
store via the tool and returns `{"result": ...}`. No inspection of the
query text happens before dispatch. -/
def execute_query (env : Env) (s : State) :
    List Event × Except String Update :=
  match s.query with
  | none => ([], .error "KeyError: query")
  | some q => ([Event.storeCall q], .ok { result := some (querySQLDataBaseTool env q) })

/-- `generate_answer` from `build_graph`: builds the answer prompt from
`state["question"]`, `state["query"]` and `state["result"]`, invokes the
model once and returns `{"answer": response.content}`. -/
def generate_answer (env : Env) (s : State) :
    List Event × Except String Update :=
  match s.question, s.query, s.result with
  | some q, some sql, some res =>
    let p := LCPrompt.answer q sql res
    match env.invoke p with
    | .ok content => ([Event.llmCall p], .ok { answer := some content })
    | .error e => ([Event.llmCall p], .error e)
  | _, _, _ => ([], .error "KeyError")

/-- The type of a LangGraph node in this embedding. -/
abbrev Node := Env → State → List Event × Except String Update

/-- Sequential execution of nodes as compiled by
`StateGraph(State).add_sequence([...])`: each node runs on the merged
state; an uncaught exception in a node aborts the remaining nodes. -/
def runSeq (env : Env) : List Node → State → List Event × Except String State
  | [], s => ([], .ok s)
  | n :: ns, s =>
    match n env s with
    | (tr, .error e) => (tr, .error e)
    | (tr, .ok u) =>
      let (tr2, r) := runSeq env ns (applyUpdate s u)
      (tr ++ tr2, r)

/-- `build_graph(llm).invoke`: the four stages in sequence. -/
def build_graph (env : Env) (s : State) : List Event × Except String State :=
  runSeq env [natural_language_expand, write_query, execute_query, generate_answer] s

/-- `get_llm` from `app.py`: the model allow-list, mapping a supported
identifier to a `(model, provider)` pair and raising
`ValueError(f"Unsupported model: {model}")` otherwise. -/
def get_llm (model : String) : Except String (String × String) :=
  if model = "gemini-2.0-flash" then .ok ("gemini-2.0-flash", "google_genai")
  else if model = "llama-3.3-70b-versatile" then .ok ("llama-3.3-70b-versatile", "groq")
  else if model = "gemini-2.5-flash-preview-04-17" then
    .ok ("gemini-2.5-flash-preview-04-17", "google_genai")
  else .error ("Unsupported model: " ++ model)

/-- The initial state `process_question` constructs: all five keys
present, `question` set, the rest empty strings. -/
def initState (question : String) : State where
  question := some question
  expanded_question := some ""
  query := some ""
  result := some ""
  answer := some ""

/-- `process_question(question, llm_model)`: empty-question short-circuit,
model resolution, graph run, and formatting of the four returned values,
with the whole pipeline wrapped in `try/except` returning
`("❌ Error: " + str(e), "", "", "")` on any exception. The first
component of the result is the trace of external calls the run made. -/
def process_question (env : Env) (question llm_model : String) :
    List Event × (String × String × String × String) :=
  if question = "" then
    ([], ("❌ Error: Please enter a question.", "", "", ""))
  else
    match get_llm llm_model with
    | .error e => ([], ("❌ Error: " ++ e, "", "", ""))
    | .ok _ =>
      match build_graph env (initState question) with
      | (tr, .ok st) =>
        (tr, ("📋 Final Answer\n\n" ++ st.answer.getD "",
              "🧠 Expanded Question\n\n" ++ st.expanded_question.getD "",
              "📄 SQL Query\n\n" ++ st.query.getD "",
              "📊 Query Result\n\n" ++ st.result.getD "No result found"))
      | (tr, .error e) => (tr, ("❌ Error: " ++ e, "", "", ""))

/-- Is this event a structured-output model call? -/
def isStructuredCall : Event → Bool
  | .structuredCall _ => true
  | _ => false

/-- Is this event a store dispatch? -/
def isStoreCall : Event → Bool
  | .storeCall _ => true
  | _ => false

/-- Number of structured-output model calls in a trace. -/
def countStructured (tr : List Event) : Nat :=
  (tr.filter isStructuredCall).length

/-- The query prompt that `write_query` builds for a given expanded
question: it always carries `top_k = 10`. -/
def queryPromptOf (env : Env) (input : String) : QueryPrompt where
  dialect := env.dialect
  top_k := 10
  table_info := env.table_info
  input := input

/-- A closed form for one full graph run from the orchestrator's initial
state, as a function of the three oracle outcomes encountered in stage
order. -/
def pipelineResult (env : Env) (q : String) :
    List Event × Except String State :=
  match env.invoke (LCPrompt.expand env.table_info q) with
  | .error e => ([Event.llmCall (LCPrompt.expand env.table_info q)], .error e)
  | .ok ex =>
    match env.invokeStructured (queryPromptOf env ex) with
    | .error e =>
      ([Event.llmCall (LCPrompt.expand env.table_info q),
        Event.structuredCall (queryPromptOf env ex)], .error e)
    | .ok out =>
      match env.invoke
          (LCPrompt.answer q out.query (querySQLDataBaseTool env out.query)) with
      | .error e =>
        ([Event.llmCall (LCPrompt.expand env.table_info q),
          Event.structuredCall (queryPromptOf env ex),
          Event.storeCall out.query,
          Event.llmCall
            (LCPrompt.answer q out.query (querySQLDataBaseTool env out.query))],
         .error e)
      | .ok ans =>
        ([Event.llmCall (LCPrompt.expand env.table_info q),
          Event.structuredCall (queryPromptOf env ex),
          Event.storeCall out.query,
          Event.llmCall
            (LCPrompt.answer q out.query (querySQLDataBaseTool env out.query))],
         .ok { question := some q, expanded_question := some ex,
               query := some out.query,
               result := some (querySQLDataBaseTool env out.query),
               answer := some ans })

/-- Unfolding lemma: a graph run from the initial state is exactly
`pipelineResult`. -/
theorem build_graph_initState_eq (env : Env) (q : String) :
    build_graph env (initState q) = pipelineResult env q := by
  unfold build_graph pipelineResult initState queryPromptOf
  simp only [runSeq, natural_language_expand]
  cases h1 : env.invoke (LCPrompt.expand env.table_info q) with
  | error e => simp [runSeq]
  | ok ex =>
    simp only [runSeq, write_query, applyUpdate]
    cases h2 : env.invokeStructured
        { dialect := env.dialect, top_k := 10, table_info := env.table_info,
          input := ex } with
    | error e => simp [runSeq]
    | ok out =>
      simp only [runSeq, execute_query, applyUpdate]
      cases h4 : env.invoke
          (LCPrompt.answer q out.query (querySQLDataBaseTool env out.query)) with
      | error e => simp [runSeq, generate_answer, applyUpdate, h4]
      | ok ans => simp [runSeq, generate_answer, applyUpdate, h4]

/-- Table metadata used by the concrete environments below. -/
def tableInfoStub : String :=
  "players, teams, matches, player_matches, venues, deliveries, player_teams"

/-- A fully successful environment. -/
def envOK : Env where
  dialect := "postgresql"
  table_info := tableInfoStub
  invoke := fun p =>
    match p with
    | .expand _ q => .ok ("expanded: " ++ q)
    | .answer _ _ r => .ok ("answer from " ++ r)
  invokeStructured := fun _ => .ok ⟨"SELECT name FROM players LIMIT 10"⟩
  run := fun _ => .ok [["Rinku Singh"]]

/-- An environment whose synthesis stage produces a mutating statement;
the store runs it (a DELETE returns no rows). -/
def envMut : Env where
  dialect := "postgresql"
  table_info := tableInfoStub
  invoke := fun p =>
    match p with
    | .expand _ q => .ok ("expanded: " ++ q)
    | .answer _ _ _ => .ok "done"
  invokeStructured := fun _ => .ok ⟨"DELETE FROM players"⟩
  run := fun _ => .ok []

/-- An environment whose expansion model call fails. -/
def envExpandFail : Env where
  dialect := "postgresql"
  table_info := tableInfoStub
  invoke := fun p =>
    match p with
    | .expand _ _ => .error "DeadlineExceeded: model timed out"
    | .answer _ _ _ => .ok "unreachable"
  invokeStructured := fun _ => .ok ⟨"SELECT 1"⟩
  run := fun _ => .ok []

/-- An environment whose structured-output call fails validation. -/
def envStructFail : Env where
  dialect := "postgresql"
  table_info := tableInfoStub
  invoke := fun p =>
    match p with
    | .expand _ q => .ok ("expanded: " ++ q)
    | .answer _ _ _ => .ok "unreachable"
  invokeStructured := fun _ => .error "ValidationError: query field missing"
  run := fun _ => .ok []

/-- An environment whose store rejects the query with a syntax error. -/
def envStoreFail : Env where
  dialect := "postgresql"
  table_info := tableInfoStub
  invoke := fun p =>
    match p with
    | .expand _ q => .ok ("expanded: " ++ q)
    | .answer _ _ r => .ok ("explained: " ++ r)
  invokeStructured := fun _ => .ok ⟨"SELECT sixes FROM nowhere"⟩
  run := fun _ => .error "relation nowhere does not exist"

/-- An environment whose store returns 11 rows for the generated query. -/
def env11 : Env where
  dialect := "postgresql"
  table_info := tableInfoStub
  invoke := fun p =>
    match p with
    | .expand _ q => .ok ("expanded: " ++ q)
    | .answer _ _ _ => .ok "eleven rows"
  invokeStructured := fun _ => .ok ⟨"SELECT name, sixes FROM player_matches"⟩
  run := fun _ => .ok (List.replicate 11 ["row"])

/-- C3: for the empty question, `process_question` returns the
validation-error tuple with the other three fields empty, and the trace is
empty: no pipeline stage, model call or store call is ever made. -/
theorem C3_empty_question (env : Env) (m : String) :
    process_question env "" m =
      ([], ("❌ Error: Please enter a question.", "", "", "")) := rfl

/-- C9: `get_llm` maps exactly the three supported identifiers to their
`(model, provider)` pairs, returning the model name unchanged, and raises
`ValueError("Unsupported model: ...")` on every other string. -/
theorem C9_get_llm :
    get_llm "gemini-2.0-flash" = .ok ("gemini-2.0-flash", "google_genai") ∧
    get_llm "gemini-2.5-flash-preview-04-17" =
      .ok ("gemini-2.5-flash-preview-04-17", "google_genai") ∧
    get_llm "llama-3.3-70b-versatile" = .ok ("llama-3.3-70b-versatile", "groq") ∧
    ∀ m : String, m ≠ "gemini-2.0-flash" → m ≠ "llama-3.3-70b-versatile" →
      m ≠ "gemini-2.5-flash-preview-04-17" →
      get_llm m = .error ("Unsupported model: " ++ m) := by
  refine ⟨rfl, rfl, rfl, ?_⟩
  intro m h1 h2 h3
  simp [get_llm, h1, h2, h3]

/-- C9 witness: the unsupported branch at a concrete input. -/
theorem C9_get_llm_witness :
    get_llm "unsupported-model-x" =
      .error ("Unsupported model: " ++ "unsupported-model-x") :=
  C9_get_llm.2.2.2 "unsupported-model-x" (by decide) (by decide) (by decide)

/-- C4: for every model identifier outside the allow-list (and a
non-empty question, so the model check is reached), `process_question`
returns the configuration-error tuple with an empty trace: no pipeline
stage and no model or store call executes. -/
theorem C4_unsupported_model (env : Env) (q m : String) (hq : q ≠ "")
    (h1 : m ≠ "gemini-2.0-flash") (h2 : m ≠ "llama-3.3-70b-versatile")
    (h3 : m ≠ "gemini-2.5-flash-preview-04-17") :
    process_question env q m =
      ([], ("❌ Error: " ++ ("Unsupported model: " ++ m), "", "", "")) := by
  simp [process_question, get_llm, hq, h1, h2, h3]

/-- C4 witness: a concrete unsupported model. -/
theorem C4_unsupported_model_witness :
    process_question envOK "Most sixes in IPL 2023?" "unsupported-model-x" =
      ([], ("❌ Error: " ++ ("Unsupported model: " ++ "unsupported-model-x"),
            "", "", "")) :=
  C4_unsupported_model envOK "Most sixes in IPL 2023?" "unsupported-model-x"
    (by decide) (by decide) (by decide) (by decide)

/-- With a non-empty question and a supported model, `process_question`
is the graph run plus output formatting. -/
theorem process_question_eq (env : Env) (q m : String)
    (pr : String × String) (hq : q ≠ "") (hm : get_llm m = .ok pr) :
    process_question env q m =
      (match pipelineResult env q with
       | (tr, .ok st) =>
         (tr, ("📋 Final Answer\n\n" ++ st.answer.getD "",
               "🧠 Expanded Question\n\n" ++ st.expanded_question.getD "",
               "📄 SQL Query\n\n" ++ st.query.getD "",
               "📊 Query Result\n\n" ++ st.result.getD "No result found"))
       | (tr, .error e) => (tr, ("❌ Error: " ++ e, "", "", ""))) := by
  unfold process_question
  rw [if_neg hq, hm, build_graph_initState_eq]

/-- Case analysis of one graph run by the first failing oracle call. -/
theorem pipelineResult_cases (env : Env) (q : String) :
    (∃ e, env.invoke (LCPrompt.expand env.table_info q) = .error e ∧
      pipelineResult env q =
        ([Event.llmCall (LCPrompt.expand env.table_info q)], .error e)) ∨
    (∃ ex e, env.invoke (LCPrompt.expand env.table_info q) = .ok ex ∧
      env.invokeStructured (queryPromptOf env ex) = .error e ∧
      pipelineResult env q =
        ([Event.llmCall (LCPrompt.expand env.table_info q),
          Event.structuredCall (queryPromptOf env ex)], .error e)) ∨
    (∃ ex out e, env.invoke (LCPrompt.expand env.table_info q) = .ok ex ∧
      env.invokeStructured (queryPromptOf env ex) = .ok out ∧
      env.invoke (LCPrompt.answer q out.query (querySQLDataBaseTool env out.query)) =
        .error e ∧
      pipelineResult env q =
        ([Event.llmCall (LCPrompt.expand env.table_info q),
          Event.structuredCall (queryPromptOf env ex),
          Event.storeCall out.query,
          Event.llmCall
            (LCPrompt.answer q out.query (querySQLDataBaseTool env out.query))],
         .error e)) ∨
    (∃ ex out ans, env.invoke (LCPrompt.expand env.table_info q) = .ok ex ∧
      env.invokeStructured (queryPromptOf env ex) = .ok out ∧
      env.invoke (LCPrompt.answer q out.query (querySQLDataBaseTool env out.query)) =
        .ok ans ∧
      pipelineResult env q =
        ([Event.llmCall (LCPrompt.expand env.table_info q),
          Event.structuredCall (queryPromptOf env ex),
          Event.storeCall out.query,
          Event.llmCall
            (LCPrompt.answer q out.query (querySQLDataBaseTool env out.query))],
         .ok { question := some q, expanded_question := some ex,
               query := some out.query,
               result := some (querySQLDataBaseTool env out.query),
               answer := some ans })) := by
  cases h1 : env.invoke (LCPrompt.expand env.table_info q) with
  | error e =>
    have hp : pipelineResult env q =
        ([Event.llmCall (LCPrompt.expand env.table_info q)], .error e) := by
      unfold pipelineResult
      simp only [h1]
    exact Or.inl ⟨e, rfl, hp⟩
  | ok ex =>
    cases h2 : env.invokeStructured (queryPromptOf env ex) with
    | error e =>
      have hp : pipelineResult env q =
          ([Event.llmCall (LCPrompt.expand env.table_info q),
            Event.structuredCall (queryPromptOf env ex)], .error e) := by
        unfold pipelineResult
        simp only [h1, h2]
      exact Or.inr (Or.inl ⟨ex, e, rfl, h2, hp⟩)
    | ok out =>
      cases h4 : env.invoke
          (LCPrompt.answer q out.query (querySQLDataBaseTool env out.query)) with
      | error e =>
        have hp : pipelineResult env q =
            ([Event.llmCall (LCPrompt.expand env.table_info q),
              Event.structuredCall (queryPromptOf env ex),
              Event.storeCall out.query,
              Event.llmCall
                (LCPrompt.answer q out.query (querySQLDataBaseTool env out.query))],
             .error e) := by
          unfold pipelineResult
          simp only [h1, h2, h4]
        exact Or.inr (Or.inr (Or.inl ⟨ex, out, e, rfl, h2, h4, hp⟩))
      | ok ans =>
        have hp : pipelineResult env q =
            ([Event.llmCall (LCPrompt.expand env.table_info q),
              Event.structuredCall (queryPromptOf env ex),
              Event.storeCall out.query,
              Event.llmCall
                (LCPrompt.answer q out.query (querySQLDataBaseTool env out.query))],
             .ok { question := some q, expanded_question := some ex,
                   query := some out.query,
                   result := some (querySQLDataBaseTool env out.query),
                   answer := some ans }) := by
          unfold pipelineResult
          simp only [h1, h2, h4]
        exact Or.inr (Or.inr (Or.inr ⟨ex, out, ans, rfl, h2, h4, hp⟩))

/-- C1 amended: `execute_query` performs no statement-kind check: for any
state whose `query` key is set, it dispatches that query text unchanged to
the store and returns the captured output; there is no rejection branch
and no `GuardViolation`, so mutating statements reach the store. -/
theorem C1_no_statement_kind_check (env : Env) (s : State) (q : String)
    (h : s.query = some q) :
    execute_query env s =
      ([Event.storeCall q], .ok { result := some (querySQLDataBaseTool env q) }) := by
  simp [execute_query, h]

/-- C1 witness: a mutating statement is dispatched unchanged. -/
theorem C1_no_statement_kind_check_witness :
    execute_query envMut
      { question := some "x", expanded_question := some "y",
        query := some "DELETE FROM players", result := some "", answer := some "" } =
      ([Event.storeCall "DELETE FROM players"],
       .ok { result := some (querySQLDataBaseTool envMut "DELETE FROM players") }) :=
  C1_no_statement_kind_check envMut
    { question := some "x", expanded_question := some "y",
      query := some "DELETE FROM players", result := some "", answer := some "" }
    "DELETE FROM players" rfl

/-- C1 counterexample: with a model that synthesizes
`DELETE FROM players`, the mutating statement reaches the store (it is in
the trace of store dispatches) and the request completes with a normal
answer tuple, not a `GuardViolation` rejection. -/
theorem C1_counterexample :
    Event.storeCall "DELETE FROM players" ∈
      (process_question envMut "remove all players" "gemini-2.0-flash").1 ∧
    (process_question envMut "remove all players" "gemini-2.0-flash").2 =
      ("📋 Final Answer\n\n" ++ "done",
       "🧠 Expanded Question\n\n" ++ "expanded: remove all players",
       "📄 SQL Query\n\n" ++ "DELETE FROM players",
       "📊 Query Result\n\n" ++ "[]") := by
  constructor
  · have h : (process_question envMut "remove all players" "gemini-2.0-flash").1 =
        [Event.llmCall (LCPrompt.expand tableInfoStub "remove all players"),
         Event.structuredCall (queryPromptOf envMut "expanded: remove all players"),
         Event.storeCall "DELETE FROM players",
         Event.llmCall (LCPrompt.answer "remove all players" "DELETE FROM players"
           "[]")] := rfl
    rw [h]
    simp
  · rfl

/-- C7 amended: the SQL synthesis stage always passes the maximum-row
ceiling 10 to the model — every structured-output call made during any
request carries `top_k = 10` in its prompt. The ceiling is only an
instruction to the model: see `C7_counterexample` for the absence of
enforcement on the executed result. -/
theorem C7_row_ceiling_prompted (env : Env) (q m : String) (p : QueryPrompt)
    (h : Event.structuredCall p ∈ (process_question env q m).1) :
    p.top_k = 10 := by
  by_cases hq : q = ""
  · subst hq
    simp [process_question] at h
  · cases hg : get_llm m with
    | error e =>
      simp [process_question, hq, hg] at h
    | ok pr =>
      rw [process_question_eq env q m pr hq hg] at h
      rcases pipelineResult_cases env q with
        ⟨e, h1, hp⟩ | ⟨ex, e, h1, h2, hp⟩ | ⟨ex, out, e, h1, h2, h4, hp⟩ |
        ⟨ex, out, ans, h1, h2, h4, hp⟩
      · rw [hp] at h
        simp at h
      · rw [hp] at h
        simp at h
        rw [h]
        rfl
      · rw [hp] at h
        simp at h
        rw [h]
        rfl
      · rw [hp] at h
        simp at h
        rw [h]
        rfl

/-- C7 amended witness: a concrete structured call carries `top_k = 10`. -/
theorem C7_row_ceiling_prompted_witness :
    (queryPromptOf envOK "expanded: Most sixes in IPL 2023").top_k = 10 :=
  C7_row_ceiling_prompted envOK "Most sixes in IPL 2023" "gemini-2.0-flash"
    (queryPromptOf envOK "expanded: Most sixes in IPL 2023") (by
      have h : (process_question envOK "Most sixes in IPL 2023"
          "gemini-2.0-flash").1 =
          [Event.llmCall (LCPrompt.expand tableInfoStub "Most sixes in IPL 2023"),
           Event.structuredCall
             (queryPromptOf envOK "expanded: Most sixes in IPL 2023"),
           Event.storeCall "SELECT name FROM players LIMIT 10",
           Event.llmCall (LCPrompt.answer "Most sixes in IPL 2023"
             "SELECT name FROM players LIMIT 10" "[(Rinku Singh)]")] := rfl
      rw [h]
      simp)

/-- C7 counterexample: the ceiling is not enforced by the code. For a
question that does not request more rows, a store returning 11 rows for
the synthesized query is accepted: the query is dispatched, the 11-row
result is stored and the request completes normally, so the executed
result set size exceeds the ceiling 10. -/
theorem C7_counterexample :
    env11.run "SELECT name, sixes FROM player_matches" =
      .ok (List.replicate 11 ["row"]) ∧
    (List.replicate 11 (["row"] : List String)).length = 11 ∧
    Event.storeCall "SELECT name, sixes FROM player_matches" ∈
      (process_question env11 "Most sixes in IPL 2023" "gemini-2.0-flash").1 ∧
    (process_question env11 "Most sixes in IPL 2023" "gemini-2.0-flash").2 =
      ("📋 Final Answer\n\n" ++ "eleven rows",
       "🧠 Expanded Question\n\n" ++ "expanded: Most sixes in IPL 2023",
       "📄 SQL Query\n\n" ++ "SELECT name, sixes FROM player_matches",
       "📊 Query Result\n\n" ++ serializeRows (List.replicate 11 ["row"])) := by
  refine ⟨rfl, rfl, ?_, rfl⟩
  have h : (process_question env11 "Most sixes in IPL 2023"
      "gemini-2.0-flash").1 =
      [Event.llmCall (LCPrompt.expand tableInfoStub "Most sixes in IPL 2023"),
       Event.structuredCall (queryPromptOf env11 "expanded: Most sixes in IPL 2023"),
       Event.storeCall "SELECT name, sixes FROM player_matches",
       Event.llmCall (LCPrompt.answer "Most sixes in IPL 2023"
         "SELECT name, sixes FROM player_matches"
         (serializeRows (List.replicate 11 ["row"])))] := rfl
  rw [h]
  simp

/-- C2: with a non-empty question and a supported model, the run either
succeeds with all four output fields computed by their stages (the stages
having run exactly once each, in order), or terminates at the first
failing stage with the error in the answer position and the other three
positions empty; a failure of the expansion stage in particular aborts
the run before any synthesis call. -/
theorem C2_resolve_outcomes (env : Env) (q m : String) (pr : String × String)
    (hq : q ≠ "") (hm : get_llm m = .ok pr) :
    ((∃ ex out res ans,
        process_question env q m =
          ([Event.llmCall (LCPrompt.expand env.table_info q),
            Event.structuredCall (queryPromptOf env ex),
            Event.storeCall out,
            Event.llmCall (LCPrompt.answer q out res)],
           ("📋 Final Answer\n\n" ++ ans,
            "🧠 Expanded Question\n\n" ++ ex,
            "📄 SQL Query\n\n" ++ out,
            "📊 Query Result\n\n" ++ res))) ∨
      (∃ e, (process_question env q m).2 = ("❌ Error: " ++ e, "", "", ""))) ∧
    ∀ e, env.invoke (LCPrompt.expand env.table_info q) = .error e →
      process_question env q m =
        ([Event.llmCall (LCPrompt.expand env.table_info q)],
         ("❌ Error: " ++ e, "", "", "")) := by
  have he := process_question_eq env q m pr hq hm
  constructor
  · rcases pipelineResult_cases env q with
      ⟨e, h1, hp⟩ | ⟨ex, e, h1, h2, hp⟩ | ⟨ex, out, e, h1, h2, h4, hp⟩ |
      ⟨ex, out, ans, h1, h2, h4, hp⟩
    · exact Or.inr ⟨e, by rw [he, hp]⟩
    · exact Or.inr ⟨e, by rw [he, hp]⟩
    · exact Or.inr ⟨e, by rw [he, hp]⟩
    · refine Or.inl ⟨ex, out.query, querySQLDataBaseTool env out.query, ans, ?_⟩
      rw [he, hp]
      rfl
  · intro e h1
    have hp : pipelineResult env q =
        ([Event.llmCall (LCPrompt.expand env.table_info q)], .error e) := by
      unfold pipelineResult
      simp only [h1]
    rw [he, hp]

/-- C2 witness at a concrete environment and request. -/
theorem C2_resolve_outcomes_witness :
    ((∃ ex out res ans,
        process_question envOK "Most sixes in IPL 2023" "gemini-2.0-flash" =
          ([Event.llmCall (LCPrompt.expand envOK.table_info "Most sixes in IPL 2023"),
            Event.structuredCall (queryPromptOf envOK ex),
            Event.storeCall out,
            Event.llmCall (LCPrompt.answer "Most sixes in IPL 2023" out res)],
           ("📋 Final Answer\n\n" ++ ans,
            "🧠 Expanded Question\n\n" ++ ex,
            "📄 SQL Query\n\n" ++ out,
            "📊 Query Result\n\n" ++ res))) ∨
      (∃ e, (process_question envOK "Most sixes in IPL 2023"
        "gemini-2.0-flash").2 = ("❌ Error: " ++ e, "", "", ""))) ∧
    ∀ e, envOK.invoke (LCPrompt.expand envOK.table_info "Most sixes in IPL 2023") =
        .error e →
      process_question envOK "Most sixes in IPL 2023" "gemini-2.0-flash" =
        ([Event.llmCall (LCPrompt.expand envOK.table_info "Most sixes in IPL 2023")],
         ("❌ Error: " ++ e, "", "", "")) :=
  C2_resolve_outcomes envOK "Most sixes in IPL 2023" "gemini-2.0-flash"
    ("gemini-2.0-flash", "google_genai") (by decide) rfl

/-- C5: the SQL synthesis stage makes at most one structured-output model
call per request (the code performs zero internal retries, within the
permitted bound of one), and if that call fails the pipeline aborts: the
store is never reached and the request terminates with the error — in
particular no retry happens across stage boundaries. -/
theorem C5_structured_output_no_retry (env : Env) (q m : String) :
    countStructured (process_question env q m).1 ≤ 1 ∧
    ∀ p e, Event.structuredCall p ∈ (process_question env q m).1 →
      env.invokeStructured p = .error e →
      (∀ q2, Event.storeCall q2 ∉ (process_question env q m).1) ∧
      (process_question env q m).2 = ("❌ Error: " ++ e, "", "", "") := by
  by_cases hq : q = ""
  · subst hq
    refine ⟨by simp [process_question, countStructured], ?_⟩
    intro p e hmem
    simp [process_question] at hmem
  · cases hg : get_llm m with
    | error e0 =>
      refine ⟨by simp [process_question, hq, hg, countStructured], ?_⟩
      intro p e hmem
      simp [process_question, hq, hg] at hmem
    | ok pr =>
      have he := process_question_eq env q m pr hq hg
      rcases pipelineResult_cases env q with
        ⟨e0, h1, hp⟩ | ⟨ex, e0, h1, h2, hp⟩ | ⟨ex, out, e0, h1, h2, h4, hp⟩ |
        ⟨ex, out, ans, h1, h2, h4, hp⟩
      · rw [he, hp]
        refine ⟨by simp [countStructured, isStructuredCall], ?_⟩
        intro p e hmem h5
        simp at hmem
      · rw [he, hp]
        refine ⟨by simp [countStructured, isStructuredCall], ?_⟩
        intro p e hmem h5
        simp at hmem
        subst hmem
        rw [h2] at h5
        cases h5
        exact ⟨by simp, by simp⟩
      · rw [he, hp]
        refine ⟨by simp [countStructured, isStructuredCall], ?_⟩
        intro p e hmem h5
        simp at hmem
        subst hmem
        rw [h2] at h5
        cases h5
      · rw [he, hp]
        refine ⟨by simp [countStructured, isStructuredCall], ?_⟩
        intro p e hmem h5
        simp at hmem
        subst hmem
        rw [h2] at h5
        cases h5

/-- C5 witness: with a failing structured-output call, the single call is
made, no store dispatch happens and the request terminates with the
error. -/
theorem C5_structured_output_no_retry_witness :
    countStructured
      (process_question envStructFail "Most sixes in IPL 2023"
        "gemini-2.0-flash").1 ≤ 1 ∧
    (∀ q2, Event.storeCall q2 ∉
      (process_question envStructFail "Most sixes in IPL 2023"
        "gemini-2.0-flash").1) ∧
    (process_question envStructFail "Most sixes in IPL 2023"
        "gemini-2.0-flash").2 =
      ("❌ Error: " ++ "ValidationError: query field missing", "", "", "") := by
  refine ⟨(C5_structured_output_no_retry envStructFail "Most sixes in IPL 2023"
    "gemini-2.0-flash").1, ?_⟩
  refine (C5_structured_output_no_retry envStructFail "Most sixes in IPL 2023"
    "gemini-2.0-flash").2
    (queryPromptOf envStructFail "expanded: Most sixes in IPL 2023")
    "ValidationError: query field missing" ?_ rfl
  have h : (process_question envStructFail "Most sixes in IPL 2023"
      "gemini-2.0-flash").1 =
      [Event.llmCall (LCPrompt.expand tableInfoStub "Most sixes in IPL 2023"),
       Event.structuredCall
         (queryPromptOf envStructFail "expanded: Most sixes in IPL 2023")] := rfl
  rw [h]
  simp

/-- C6: when the store fails on the synthesized query, `execute_query`
does not raise: it stores the captured error text `"Error: ..."` as the
result, and the pipeline proceeds to the answer stage, which is invoked
with that error text and produces the user-facing answer. -/
theorem C6_execution_error_forwarded (env : Env) (q m ex e ans : String)
    (out : QueryOutput) (pr : String × String)
    (hq : q ≠ "") (hm : get_llm m = .ok pr)
    (h1 : env.invoke (LCPrompt.expand env.table_info q) = .ok ex)
    (h2 : env.invokeStructured (queryPromptOf env ex) = .ok out)
    (h3 : env.run out.query = .error e)
    (h4 : env.invoke (LCPrompt.answer q out.query ("Error: " ++ e)) = .ok ans) :
    execute_query env
      { question := some q, expanded_question := some ex,
        query := some out.query, result := some "", answer := some "" } =
      ([Event.storeCall out.query], .ok { result := some ("Error: " ++ e) }) ∧
    process_question env q m =
      ([Event.llmCall (LCPrompt.expand env.table_info q),
        Event.structuredCall (queryPromptOf env ex),
        Event.storeCall out.query,
        Event.llmCall (LCPrompt.answer q out.query ("Error: " ++ e))],
       ("📋 Final Answer\n\n" ++ ans,
        "🧠 Expanded Question\n\n" ++ ex,
        "📄 SQL Query\n\n" ++ out.query,
        "📊 Query Result\n\n" ++ ("Error: " ++ e))) := by
  have hQ : querySQLDataBaseTool env out.query = "Error: " ++ e := by
    simp [querySQLDataBaseTool, h3]
  constructor
  · simp [execute_query, querySQLDataBaseTool, h3]
  · have hp : pipelineResult env q =
        ([Event.llmCall (LCPrompt.expand env.table_info q),
          Event.structuredCall (queryPromptOf env ex),
          Event.storeCall out.query,
          Event.llmCall (LCPrompt.answer q out.query ("Error: " ++ e))],
         .ok { question := some q, expanded_question := some ex,
               query := some out.query, result := some ("Error: " ++ e),
               answer := some ans }) := by
      unfold pipelineResult
      simp only [h1, h2, hQ, h4]
    rw [process_question_eq env q m pr hq hm, hp]
    rfl

/-- C6 witness: a concrete store failure flows into the answer stage. -/
theorem C6_execution_error_forwarded_witness :
    execute_query envStoreFail
      { question := some "How many sixes did X hit?",
        expanded_question := some "expanded: How many sixes did X hit?",
        query := some "SELECT sixes FROM nowhere", result := some "",
        answer := some "" } =
      ([Event.storeCall "SELECT sixes FROM nowhere"],
       .ok { result := some ("Error: " ++ "relation nowhere does not exist") }) ∧
    process_question envStoreFail "How many sixes did X hit?"
        "llama-3.3-70b-versatile" =
      ([Event.llmCall (LCPrompt.expand envStoreFail.table_info
          "How many sixes did X hit?"),
        Event.structuredCall
          (queryPromptOf envStoreFail "expanded: How many sixes did X hit?"),
        Event.storeCall "SELECT sixes FROM nowhere",
        Event.llmCall (LCPrompt.answer "How many sixes did X hit?"
          "SELECT sixes FROM nowhere"
          ("Error: " ++ "relation nowhere does not exist"))],
       ("📋 Final Answer\n\n" ++
          "explained: Error: relation nowhere does not exist",
        "🧠 Expanded Question\n\n" ++ "expanded: How many sixes did X hit?",
        "📄 SQL Query\n\n" ++ "SELECT sixes FROM nowhere",
        "📊 Query Result\n\n" ++ ("Error: " ++ "relation nowhere does not exist"))) :=
  C6_execution_error_forwarded envStoreFail "How many sixes did X hit?"
    "llama-3.3-70b-versatile" "expanded: How many sixes did X hit?"
    "relation nowhere does not exist"
    "explained: Error: relation nowhere does not exist"
    ⟨"SELECT sixes FROM nowhere"⟩ ("llama-3.3-70b-versatile", "groq")
    (by decide) rfl rfl rfl rfl rfl

/-- Characterization of a successful expansion step. -/
theorem natural_language_expand_ok (env : Env) (s : State) (tr : List Event)
    (u : Update) (h : natural_language_expand env s = (tr, .ok u)) :
    ∃ q content, s.question = some q ∧
      env.invoke (LCPrompt.expand env.table_info q) = .ok content ∧
      tr = [Event.llmCall (LCPrompt.expand env.table_info q)] ∧
      u = { expanded_question := some content } := by
  unfold natural_language_expand at h
  cases hs : s.question with
  | none =>
    rw [hs] at h
    simp at h
  | some q =>
    rw [hs] at h
    cases hi : env.invoke (LCPrompt.expand env.table_info q) with
    | ok content =>
      simp only [hi, Prod.mk.injEq, Except.ok.injEq] at h
      exact ⟨q, content, rfl, hi, h.1.symm, h.2.symm⟩
    | error e =>
      simp only [hi] at h
      simp at h

/-- Characterization of a successful synthesis step. -/
theorem write_query_ok (env : Env) (s : State) (tr : List Event)
    (u : Update) (h : write_query env s = (tr, .ok u)) :
    ∃ input out, s.expanded_question = some input ∧
      env.invokeStructured (queryPromptOf env input) = .ok out ∧
      tr = [Event.structuredCall (queryPromptOf env input)] ∧
      u = { query := some out.query } := by
  unfold write_query at h
  cases hs : s.expanded_question with
  | none =>
    rw [hs] at h
    simp at h
  | some input =>
    rw [hs] at h
    cases hi : env.invokeStructured (queryPromptOf env input) with
    | ok out =>
      simp only [queryPromptOf] at hi
      simp only [hi, Prod.mk.injEq, Except.ok.injEq] at h
      refine ⟨input, out, rfl, ?_, ?_, h.2.symm⟩
      · simpa [queryPromptOf] using hi
      · simpa [queryPromptOf] using h.1.symm
    | error e =>
      simp only [queryPromptOf] at hi
      simp only [hi] at h
      simp at h

/-- Characterization of the execution step: it always succeeds when the
query key is present, dispatching the query unchanged. -/
theorem execute_query_ok (env : Env) (s : State) (tr : List Event)
    (u : Update) (h : execute_query env s = (tr, .ok u)) :
    ∃ q, s.query = some q ∧
      tr = [Event.storeCall q] ∧
      u = { result := some (querySQLDataBaseTool env q) } := by
  unfold execute_query at h
  cases hs : s.query with
  | none =>
    rw [hs] at h
    simp at h
  | some q =>
    rw [hs] at h
    simp only [Prod.mk.injEq, Except.ok.injEq] at h
    exact ⟨q, rfl, h.1.symm, h.2.symm⟩

/-- Characterization of a successful answer step. -/
theorem generate_answer_ok (env : Env) (s : State) (tr : List Event)
    (u : Update) (h : generate_answer env s = (tr, .ok u)) :
    ∃ q sql res content, s.question = some q ∧ s.query = some sql ∧
      s.result = some res ∧
      env.invoke (LCPrompt.answer q sql res) = .ok content ∧
      tr = [Event.llmCall (LCPrompt.answer q sql res)] ∧
      u = { answer := some content } := by
  unfold generate_answer at h
  cases hq : s.question with
  | none =>
    rw [hq] at h
    simp at h
  | some q =>
    cases hsql : s.query with
    | none =>
      rw [hq, hsql] at h
      simp at h
    | some sql =>
      cases hres : s.result with
      | none =>
        rw [hq, hsql, hres] at h
        simp at h
      | some res =>
        rw [hq, hsql, hres] at h
        cases hi : env.invoke (LCPrompt.answer q sql res) with
        | ok content =>
          simp only [hi, Prod.mk.injEq, Except.ok.injEq] at h
          exact ⟨q, sql, res, content, rfl, rfl, rfl, hi, h.1.symm, h.2.symm⟩
        | error e =>
          simp only [hi] at h
          simp at h

/-- If every node of a sequence leaves the `question` key out of its
update, the sequence preserves `question`. -/
theorem runSeq_question_eq (env : Env) (ns : List Node)
    (hns : ∀ n ∈ ns, ∀ s tr u, n env s = (tr, Except.ok u) → u.question = none) :
    ∀ s tr s2, runSeq env ns s = (tr, .ok s2) → s2.question = s.question := by
  induction ns with
  | nil =>
    intro s tr s2 h
    simp only [runSeq, Prod.mk.injEq, Except.ok.injEq] at h
    rw [← h.2]
  | cons n ns ih =>
    intro s tr s2 h
    unfold runSeq at h
    cases hn : n env s with
    | mk tr1 r1 =>
      rw [hn] at h
      cases r1 with
      | error e => simp at h
      | ok u =>
        dsimp only at h
        cases hr : runSeq env ns (applyUpdate s u) with
        | mk tr2 r2 =>
          rw [hr] at h
          dsimp only at h
          simp only [Prod.mk.injEq] at h
          have hq2 : s2.question = (applyUpdate s u).question :=
            ih (fun n2 hm => hns n2 (List.mem_cons_of_mem _ hm))
              (applyUpdate s u) tr2 s2 (by rw [hr, h.2])
          have hu : u.question = none := hns n (List.mem_cons_self _ _) s tr1 u hn
          rw [hq2]
          simp [applyUpdate, hu]

/-- C8: frame and order of the four stages. Each stage's successful
update contains only its own field; the graph run never changes
`question`; a successful run from the orchestrator's initial state
performs the four stages exactly once, in order, with every field set by
its stage; and a failure of the first stage short-circuits the run, so no
later stage runs on a swallowed failure. -/
theorem C8_frame_and_order (env : Env) :
    (∀ s tr u, natural_language_expand env s = (tr, .ok u) →
      u.question = none ∧ u.query = none ∧ u.result = none ∧ u.answer = none) ∧
    (∀ s tr u, write_query env s = (tr, .ok u) →
      u.question = none ∧ u.expanded_question = none ∧ u.result = none ∧
        u.answer = none) ∧
    (∀ s tr u, execute_query env s = (tr, .ok u) →
      u.question = none ∧ u.expanded_question = none ∧ u.query = none ∧
        u.answer = none) ∧
    (∀ s tr u, generate_answer env s = (tr, .ok u) →
      u.question = none ∧ u.expanded_question = none ∧ u.query = none ∧
        u.result = none) ∧
    (∀ s tr s2, build_graph env s = (tr, .ok s2) → s2.question = s.question) ∧
    (∀ q tr s2, build_graph env (initState q) = (tr, .ok s2) →
      ∃ ex out res ans,
        tr = [Event.llmCall (LCPrompt.expand env.table_info q),
              Event.structuredCall (queryPromptOf env ex),
              Event.storeCall out,
              Event.llmCall (LCPrompt.answer q out res)] ∧
        s2 = { question := some q, expanded_question := some ex,
               query := some out, result := some res, answer := some ans }) ∧
    (∀ q e, env.invoke (LCPrompt.expand env.table_info q) = .error e →
      build_graph env (initState q) =
        ([Event.llmCall (LCPrompt.expand env.table_info q)], .error e)) := by
  refine ⟨?_, ?_, ?_, ?_, ?_, ?_, ?_⟩
  · intro s tr u h
    obtain ⟨q, content, _, _, _, hu⟩ := natural_language_expand_ok env s tr u h
    rw [hu]
    exact ⟨rfl, rfl, rfl, rfl⟩
  · intro s tr u h
    obtain ⟨input, out, _, _, _, hu⟩ := write_query_ok env s tr u h
    rw [hu]
    exact ⟨rfl, rfl, rfl, rfl⟩
  · intro s tr u h
    obtain ⟨q, _, _, hu⟩ := execute_query_ok env s tr u h
    rw [hu]
    exact ⟨rfl, rfl, rfl, rfl⟩
  · intro s tr u h
    obtain ⟨q, sql, res, content, _, _, _, _, _, hu⟩ :=
      generate_answer_ok env s tr u h
    rw [hu]
    exact ⟨rfl, rfl, rfl, rfl⟩
  · intro s tr s2 h
    refine runSeq_question_eq env _ ?_ s tr s2 h
    intro n hn s' tr' u' h'
    simp only [List.mem_cons, List.mem_singleton] at hn
    rcases hn with hn | hn | hn | hn | hn
    · subst hn
      obtain ⟨_, _, _, _, _, hu⟩ := natural_language_expand_ok env s' tr' u' h'
      rw [hu]
    · subst hn
      obtain ⟨_, _, _, _, _, hu⟩ := write_query_ok env s' tr' u' h'
      rw [hu]
    · subst hn
      obtain ⟨_, _, _, hu⟩ := execute_query_ok env s' tr' u' h'
      rw [hu]
    · subst hn
      obtain ⟨_, _, _, _, _, _, _, _, _, hu⟩ := generate_answer_ok env s' tr' u' h'
      rw [hu]
    · simp at hn
  · intro q tr s2 h
    rw [build_graph_initState_eq] at h
    rcases pipelineResult_cases env q with
      ⟨e, h1, hp⟩ | ⟨ex, e, h1, h2, hp⟩ | ⟨ex, out, e, h1, h2, h4, hp⟩ |
      ⟨ex, out, ans, h1, h2, h4, hp⟩
    · rw [hp] at h
      simp at h
    · rw [hp] at h
      simp at h
    · rw [hp] at h
      simp at h
    · rw [hp] at h
      simp only [Prod.mk.injEq, Except.ok.injEq] at h
      exact ⟨ex, out.query, querySQLDataBaseTool env out.query, ans,
        h.1.symm, h.2.symm⟩
  · intro q e h1
    rw [build_graph_initState_eq]
    unfold pipelineResult
    simp only [h1]

/-- C8 witness: the expansion stage's update at a concrete input sets
only its own field. -/
theorem C8_frame_and_order_witness :
    ({ expanded_question := some "expanded: x" } : Update).question = none ∧
    ({ expanded_question := some "expanded: x" } : Update).query = none ∧
    ({ expanded_question := some "expanded: x" } : Update).result = none ∧
    ({ expanded_question := some "expanded: x" } : Update).answer = none :=
  (C8_frame_and_order envOK).1 (initState "x")
    [Event.llmCall (LCPrompt.expand tableInfoStub "x")]
    { expanded_question := some "expanded: x" } rfl

/-- C10: the four values `process_question` returns are never the raw
state fields. On success each is the fixed header joined with the field
(`dict.get` substituting `""` for an absent answer, expanded question or
query, and `"No result found"` for an absent result); on a pipeline
failure the error message is returned in the answer position prefixed
with `"❌ Error: "` and the other three positions are empty strings. -/
theorem C10_output_formatting (env : Env) (q m : String) (pr : String × String)
    (hq : q ≠ "") (hm : get_llm m = .ok pr) :
    (∀ tr st, build_graph env (initState q) = (tr, .ok st) →
      (process_question env q m).2 =
        ("📋 Final Answer\n\n" ++ st.answer.getD "",
         "🧠 Expanded Question\n\n" ++ st.expanded_question.getD "",
         "📄 SQL Query\n\n" ++ st.query.getD "",
         "📊 Query Result\n\n" ++ st.result.getD "No result found")) ∧
    (∀ tr e, build_graph env (initState q) = (tr, .error e) →
      (process_question env q m).2 = ("❌ Error: " ++ e, "", "", "")) := by
  constructor
  · intro tr st h
    rw [process_question_eq env q m pr hq hm, ← build_graph_initState_eq, h]
  · intro tr e h
    rw [process_question_eq env q m pr hq hm, ← build_graph_initState_eq, h]

/-- C10 witness: formatting of a concrete successful run. -/
theorem C10_output_formatting_witness :
    (process_question envOK "Most runs in IPL 2024" "gemini-2.0-flash").2 =
      ("📋 Final Answer\n\n" ++
         (some "answer from [(Rinku Singh)]" : Option String).getD "",
       "🧠 Expanded Question\n\n" ++
         (some "expanded: Most runs in IPL 2024" : Option String).getD "",
       "📄 SQL Query\n\n" ++
         (some "SELECT name FROM players LIMIT 10" : Option String).getD "",
       "📊 Query Result\n\n" ++
         (some "[(Rinku Singh)]" : Option String).getD "No result found") :=
  (C10_output_formatting envOK "Most runs in IPL 2024" "gemini-2.0-flash"
      ("gemini-2.0-flash", "google_genai") (by decide) rfl).1
    [Event.llmCall (LCPrompt.expand tableInfoStub "Most runs in IPL 2024"),
     Event.structuredCall (queryPromptOf envOK "expanded: Most runs in IPL 2024"),
     Event.storeCall "SELECT name FROM players LIMIT 10",
     Event.llmCall (LCPrompt.answer "Most runs in IPL 2024"
       "SELECT name FROM players LIMIT 10" "[(Rinku Singh)]")]
    { question := some "Most runs in IPL 2024",
      expanded_question := some "expanded: Most runs in IPL 2024",
      query := some "SELECT name FROM players LIMIT 10",
      result := some "[(Rinku Singh)]",
      answer := some "answer from [(Rinku Singh)]" } rfl

end IplNlp
